import Mathlib

/-!
Shallow embedding of the map-zone / enemy-spawn subsystem of ValyriaTear
(`src/modes/map/map_zones.h`).  Methods whose bodies are inline in the
header are translated directly from that code; methods only declared in
the header (their `.cpp` bodies are not among the provided sources) are
modelled from the specification and carry a doc comment saying so.
-/

namespace ValyriaTear

/-- Class `ZoneSection` (map_zones.h, lines 44-57): a rectangular area of the
collision grid, four `uint16_t` coordinates.  The C++ constructor stores the
four values verbatim and performs no ordering validation. -/
structure ZoneSection where
  left_col : Nat
  right_col : Nat
  top_row : Nat
  bottom_row : Nat
deriving Repr, DecidableEq

/-- Modelled from the spec: `Region.Contains(col, row)` — "true iff
left ≤ col ≤ right and top ≤ row ≤ bottom" (spec §4.1).  The containment
test itself lives in the `.cpp` body of `MapZone::IsInsideZone`, which is
not among the provided sources. -/
def ZoneSection.contains (s : ZoneSection) (col row : Nat) : Bool :=
  decide (s.left_col ≤ col ∧ col ≤ s.right_col ∧
          s.top_row ≤ row ∧ row ≤ s.bottom_row)

/-- Class `MapZone` (map_zones.h, lines 71-152): the rectangular sections which
compose the map zone (`std::vector<ZoneSection> _sections`).  The rendering
members (`_interaction_icon`, draw logic) are outside the modelled state. -/
structure MapZone where
  sections : List ZoneSection
deriving Repr, DecidableEq

/-- Modelled from the spec: `MapZone::AddSection` body is not among the
provided sources.  Spec §4.2: "rejects (logs a warning, no-op) when
left ≥ right or top ≥ bottom; otherwise appends a new Region"; the header
note (map_zones.h lines 100-102) states the same rejection rule. -/
def MapZone.AddSection (z : MapZone) (l r t b : Nat) : MapZone :=
  if l ≥ r ∨ t ≥ b then z
  else { z with sections := z.sections ++ [⟨l, r, t, b⟩] }

/-- Modelled from the spec: the `MapZone` constructor body is not among the
provided sources.  Spec §3: a Zone is "created with one initial Region"
through the same validated add operation. -/
def MapZone.make (l r t b : Nat) : MapZone :=
  MapZone.AddSection ⟨[]⟩ l r t b

/-- Truncation of a (nonnegative) map coordinate to a collision-grid cell
index: the fractional part is discarded, per the note on
`MapZone::IsInsideZone` (map_zones.h lines 113-115). -/
def truncCell (x : ℚ) : Nat :=
  x.floor.toNat

/-- Modelled from the spec: `MapZone::IsInsideZone` body is not among the
provided sources.  Spec §4.2: "converts floating coordinates to grid cell
by truncation (not rounding); returns true iff any owned
Region.Contains(cell_x, cell_y)". -/
def MapZone.IsInsideZone (z : MapZone) (x y : ℚ) : Bool :=
  z.sections.any fun s => s.contains (truncCell x) (truncCell y)

/-- A zone's stored sections are all well ordered: left ≤ right and
top ≤ bottom (spec §3 Region invariant). -/
def MapZone.validSections (z : MapZone) : Prop :=
  ∀ s ∈ z.sections,
    s.left_col ≤ s.right_col ∧ s.top_row ≤ s.bottom_row

instance (z : MapZone) : Decidable z.validSections := by
  unfold MapZone.validSections; infer_instance

/-- Modelled from the spec: `MapZone::RandomPosition` body is not among the
provided sources.  Spec §4.2: "selects one Region uniformly at random from
the section list, then returns a uniformly random point within that
Region's cell bounds, converted to float coordinates at cell granularity".
The random source is made explicit: `rSec` selects the section index
(uniform by index, not by area), `rX`/`rY` select the cell within the
section's inclusive bounds.  Returns `none` on an empty section list. -/
def MapZone.RandomPosition (z : MapZone) (rSec rX rY : Nat) :
    Option (ℚ × ℚ) :=
  if h : z.sections.length = 0 then none
  else
    let s := z.sections.get ⟨rSec % z.sections.length,
      Nat.mod_lt _ (Nat.pos_of_ne_zero h)⟩
    some (((s.left_col + rX % (s.right_col - s.left_col + 1) : Nat) : ℚ),
          ((s.top_row + rY % (s.bottom_row - s.top_row + 1) : Nat) : ℚ))

/-- Class `CameraZone` (map_zones.h, lines 171-225): a `MapZone` plus the two
presence booleans `_camera_inside` and `_was_camera_inside`. -/
structure CameraZone where
  zone : MapZone
  camera_inside : Bool
  was_camera_inside : Bool
deriving Repr, DecidableEq

/-- Modelled from the spec: the `CameraZone` constructor body is not among
the provided sources.  Spec §4.3: "both flags begin false". -/
def CameraZone.make (l r t b : Nat) : CameraZone :=
  { zone := MapZone.make l r t b
    camera_inside := false
    was_camera_inside := false }

/-- Modelled from the spec: `CameraZone::Update` body is not among the
provided sources.  Spec §4.3: "Before each test, copy current inside_now
into inside_previous.  Recompute inside_now via IsInside" against the
externally tracked camera position, here passed in as `(x, y)`. -/
def CameraZone.Update (c : CameraZone) (x y : ℚ) : CameraZone :=
  { c with was_camera_inside := c.camera_inside
           camera_inside := c.zone.IsInsideZone x y }

/-- Method `CameraZone::IsCameraInside` (map_zones.h, lines 196-198). -/
def CameraZone.IsCameraInside (c : CameraZone) : Bool :=
  c.camera_inside

/-- Method `CameraZone::IsCameraEntering` (map_zones.h, lines 201-203):
`(_camera_inside == true) && (_was_camera_inside == false)`. -/
def CameraZone.IsCameraEntering (c : CameraZone) : Bool :=
  (c.camera_inside == true) && (c.was_camera_inside == false)

/-- Method `CameraZone::IsCameraExiting` (map_zones.h, lines 206-208):
`(_camera_inside == false) && (_was_camera_inside == true)`. -/
def CameraZone.IsCameraExiting (c : CameraZone) : Bool :=
  (c.camera_inside == false) && (c.was_camera_inside == true)

/-- Modelled from the spec: `vt_system::SystemTimer` (engine code, not among
the provided sources).  A tick-driven countdown timer: configurable
duration, elapsed time, and a running flag (spec §3 and §5: "independent
countdown timers with configurable duration", "tick-driven countdowns
updated in the same call"). -/
structure SystemTimer where
  duration : Nat
  time_expired : Nat
  running : Bool
deriving Repr, DecidableEq

/-- Modelled from the spec: resetting a timer returns it to its initial
state — elapsed time zero, not running. -/
def SystemTimer.Reset (t : SystemTimer) : SystemTimer :=
  { t with time_expired := 0, running := false }

/-- Modelled from the spec: sets the configured duration. -/
def SystemTimer.SetDuration (t : SystemTimer) (d : Nat) : SystemTimer :=
  { t with duration := d }

/-- Modelled from the spec: starts the timer running. -/
def SystemTimer.Run (t : SystemTimer) : SystemTimer :=
  { t with running := true }

/-- Method `GetDuration`, as used by `EnemyZone::GetSpawnTime`
(map_zones.h, lines 319-321). -/
def SystemTimer.GetDuration (t : SystemTimer) : Nat :=
  t.duration

/-- Modelled from the spec: a running timer accumulates the tick's elapsed
milliseconds; a stopped timer does not advance. -/
def SystemTimer.Advance (t : SystemTimer) (elapsed : Nat) : SystemTimer :=
  if t.running then { t with time_expired := t.time_expired + elapsed } else t

/-- Modelled from the spec: a countdown timer has expired once its elapsed
time reaches its configured duration. -/
def SystemTimer.IsFinished (t : SystemTimer) : Bool :=
  decide (t.duration ≤ t.time_expired)

/-- Class `EnemyZone` (map_zones.h, lines 248-390): a `MapZone` (the roam
sections) plus the spawn-control state.  The roster `_enemies` is modelled
as a list of template identifiers, one entry per enemy slot added via
`AddEnemy`; the concrete `EnemySprite` objects are owned externally
(spec §3 Ownership) and carry no state this subsystem reads. -/
structure EnemyZone where
  zone : MapZone
  enabled : Bool
  roaming_restrained : Bool
  active_enemies : Nat
  spawns_left : Int
  spawn_timer : SystemTimer
  dead_timer : SystemTimer
  spawn_zone : Option MapZone
  enemies : List Nat
deriving Repr, DecidableEq

/-- Modelled from the spec: the `EnemyZone` constructor body is not among
the provided sources.  Header defaults (map_zones.h, lines 241-243 and
366-369): enemies restricted to their zone, a default regeneration timer,
`_spawns_left = -1` (unlimited), no separate spawn zone, zero active
enemies; the zone starts enabled. -/
def EnemyZone.make (l r t b : Nat) : EnemyZone :=
  { zone := MapZone.make l r t b
    enabled := true
    roaming_restrained := true
    active_enemies := 0
    spawns_left := -1
    spawn_timer := { duration := 3500, time_expired := 0, running := true }
    dead_timer := { duration := 2000, time_expired := 0, running := false }
    spawn_zone := none
    enemies := [] }

/-- Method `EnemyZone::HasSeparateSpawnZone` (map_zones.h, lines 309-311):
`_spawn_zone != nullptr`. -/
def EnemyZone.HasSeparateSpawnZone (z : EnemyZone) : Bool :=
  z.spawn_zone.isSome

/-- Method `EnemyZone::GetSpawnTime` (map_zones.h, lines 319-321):
`_spawn_timer.GetDuration()`. -/
def EnemyZone.GetSpawnTime (z : EnemyZone) : Nat :=
  z.spawn_timer.GetDuration

/-- Method `EnemyZone::SetSpawnTime` (map_zones.h, lines 328-332):
`_spawn_timer.Reset(); _spawn_timer.SetDuration(time); _spawn_timer.Run();`. -/
def EnemyZone.SetSpawnTime (z : EnemyZone) (time : Nat) : EnemyZone :=
  { z with spawn_timer := ((z.spawn_timer.Reset).SetDuration time).Run }

/-- Method `EnemyZone::SetSpawnsLeft` (map_zones.h, lines 335-336). -/
def EnemyZone.SetSpawnsLeft (z : EnemyZone) (spawns : Int) : EnemyZone :=
  { z with spawns_left := spawns }

/-- Method `EnemyZone::GetSpawnsLeft` (map_zones.h, lines 339-340). -/
def EnemyZone.GetSpawnsLeft (z : EnemyZone) : Int :=
  z.spawns_left

/-- Method `EnemyZone::DecreaseSpawnsLeft` (map_zones.h, lines 343-344):
`if (_spawns_left > 0) --_spawns_left;`. -/
def EnemyZone.DecreaseSpawnsLeft (z : EnemyZone) : EnemyZone :=
  if z.spawns_left > 0 then { z with spawns_left := z.spawns_left - 1 } else z

/-- Method `EnemyZone::SetEnabled` (map_zones.h, lines 269-271). -/
def EnemyZone.SetEnabled (z : EnemyZone) (is_enabled : Bool) : EnemyZone :=
  { z with enabled := is_enabled }

/-- Method `EnemyZone::SetRoamingRestrained` (map_zones.h, lines 323-325). -/
def EnemyZone.SetRoamingRestrained (z : EnemyZone) (restrain : Bool) : EnemyZone :=
  { z with roaming_restrained := restrain }

/-- Modelled from the spec: `EnemyZone::AddEnemy` body is not among the
provided sources.  Spec §4.4: "appends count copies of the association
(template, default uninstantiated) to the roster; does not spawn
immediately". -/
def EnemyZone.AddEnemy (z : EnemyZone) (enemy : Nat) (count : Nat) : EnemyZone :=
  { z with enemies := z.enemies ++ List.replicate count enemy }

/-- The enclosure test used by `AddSpawnSection`: the candidate spawn
section must reside completely inside at least one roaming section
(map_zones.h, lines 287-291; spec §4.4). -/
def EnemyZone.spawnSectionEnclosed (z : EnemyZone) (l r t b : Nat) : Bool :=
  z.zone.sections.any fun s =>
    decide (s.left_col ≤ l ∧ r ≤ s.right_col ∧
            s.top_row ≤ t ∧ b ≤ s.bottom_row)

/-- Modelled from the spec: `EnemyZone::AddSpawnSection` body is not among
the provided sources.  Header contract (map_zones.h, lines 279-297) and
spec §4.4: invalid geometry (left ≥ right or top ≥ bottom) is rejected with
a warning; a section not fully enclosed within at least one roaming section
is rejected with a diagnostic; on the first successful add the spawn
sub-zone is lazily created, afterwards sections are appended to it. -/
def EnemyZone.AddSpawnSection (z : EnemyZone) (l r t b : Nat) : EnemyZone :=
  if l ≥ r ∨ t ≥ b then z
  else if ¬ z.spawnSectionEnclosed l r t b then z
  else
    match z.spawn_zone with
    | none => { z with spawn_zone := some (MapZone.make l r t b) }
    | some sz => { z with spawn_zone := some (sz.AddSection l r t b) }

/-- Modelled from the spec: `EnemyZone::EnemyDead` body is not among the
provided sources.  Header (map_zones.h, line 299): "Decrements the number
of active enemies by one"; spec §4.4 step 3: "decrement active_count; if
spawns_remaining > 0, decrement it; ... otherwise start/restart
death_timer".  The spawns-left decrement reuses `DecreaseSpawnsLeft` from
the header. -/
def EnemyZone.EnemyDead (z : EnemyZone) : EnemyZone :=
  let z1 := EnemyZone.DecreaseSpawnsLeft { z with active_enemies := z.active_enemies - 1 }
  if z1.spawns_left = 0 then z1
  else { z1 with dead_timer := (z1.dead_timer.Reset).Run }

/-- Modelled from the spec: `EnemyZone::Update` body is not among the
provided sources.  Spec §4.4 steps 1-2: if the zone is disabled or
`spawns_left` is 0, skip the spawning logic entirely; otherwise advance the
spawn timer and, when it has expired and the active count is below the
roster capacity, perform one spawn — sample a position from the spawn
sub-zone when present, else from the roam zone (entity construction is the
external registry's job; only the count is tracked here), increment the
active count and reset the spawn timer to its configured duration.
`elapsed` is the tick's milliseconds; `rSec`, `rX`, `rY` feed the position
sampling oracle — the sampled position (drawn from the spawn sub-zone when
present, else the roam zone, i.e. from
`(z.spawn_zone.getD z.zone).RandomPosition rSec rX rY`) only parameterizes
the entity construction done by the external registry, so it leaves no
trace in the modelled state. -/
def EnemyZone.Update (z : EnemyZone) (elapsed _rSec _rX _rY : Nat) : EnemyZone :=
  if ¬ z.enabled ∨ z.spawns_left = 0 then z
  else if (z.spawn_timer.Advance elapsed).IsFinished ∧
          z.active_enemies < z.enemies.length then
    { z with active_enemies := z.active_enemies + 1
             spawn_timer := ((z.spawn_timer.Advance elapsed).Reset).Run }
  else { z with spawn_timer := z.spawn_timer.Advance elapsed }

/-- Method `MapZone::AddSection` as inherited by `EnemyZone`: appends to the roam
zone's section list (map_zones.h, line 104, via the base class). -/
def EnemyZone.AddSection (z : EnemyZone) (l r t b : Nat) : EnemyZone :=
  { z with zone := z.zone.AddSection l r t b }

/-- Folding a sequence of `Update` ticks over an enemy zone; each list
entry supplies the tick's elapsed milliseconds and the three sampling-
oracle values. -/
def EnemyZone.UpdateRun (z : EnemyZone) (inputs : List (Nat × Nat × Nat × Nat)) :
    EnemyZone :=
  inputs.foldl (fun z i => z.Update i.1 i.2.1 i.2.2.1 i.2.2.2) z

/-- One externally invocable operation on an `EnemyZone`.  `enemyDead`
carries the external contract of spec §6: `EnemyDead()` "must be invoked
exactly once by the external object-management system when an entity's
death is finalized", hence only while a live entity exists. -/
inductive EnemyZone.Step : EnemyZone → EnemyZone → Prop
  | setEnabled (z : EnemyZone) (e : Bool) : EnemyZone.Step z (z.SetEnabled e)
  | setRoamingRestrained (z : EnemyZone) (rr : Bool) :
      EnemyZone.Step z (z.SetRoamingRestrained rr)
  | setSpawnTime (z : EnemyZone) (t : Nat) : EnemyZone.Step z (z.SetSpawnTime t)
  | setSpawnsLeft (z : EnemyZone) (n : Int) : EnemyZone.Step z (z.SetSpawnsLeft n)
  | decreaseSpawnsLeft (z : EnemyZone) : EnemyZone.Step z z.DecreaseSpawnsLeft
  | addSection (z : EnemyZone) (l r t b : Nat) :
      EnemyZone.Step z (z.AddSection l r t b)
  | addSpawnSection (z : EnemyZone) (l r t b : Nat) :
      EnemyZone.Step z (z.AddSpawnSection l r t b)
  | addEnemy (z : EnemyZone) (enemy count : Nat) :
      EnemyZone.Step z (z.AddEnemy enemy count)
  | enemyDead (z : EnemyZone) (h : 0 < z.active_enemies) :
      EnemyZone.Step z z.EnemyDead
  | update (z : EnemyZone) (elapsed rSec rX rY : Nat) :
      EnemyZone.Step z (z.Update elapsed rSec rX rY)

/-- The states an `EnemyZone` can reach from construction through any
sequence of the operations of `EnemyZone.Step`. -/
inductive EnemyZone.Reachable : EnemyZone → Prop
  | make (l r t b : Nat) : EnemyZone.Reachable (EnemyZone.make l r t b)
  | step {z z' : EnemyZone} :
      EnemyZone.Reachable z → EnemyZone.Step z z' → EnemyZone.Reachable z'

/-- Folding a sequence of camera positions (one per tick) over a freshly
constructed `CameraZone` whose flags begin false. -/
def camSeq (z : MapZone) (ps : List (ℚ × ℚ)) : CameraZone :=
  ps.foldl (fun c p => c.Update p.1 p.2)
    { zone := z, camera_inside := false, was_camera_inside := false }

theorem truncCell_natCast (n : ℕ) : truncCell (n : ℚ) = n := by
  simp [truncCell, Rat.floor_def', Rat.num_natCast, Rat.den_natCast]

/-! Concrete sample states used by the witnesses. -/

def zoneSample : MapZone := MapZone.make 0 10 0 10

def enemySampleRoam : EnemyZone := EnemyZone.make 0 10 0 1

def enemySampleFull : EnemyZone := EnemyZone.make 0 10 0 10

def enemySampleLive : EnemyZone :=
  { EnemyZone.make 0 10 0 10 with active_enemies := 2, spawns_left := 2 }

/-- Claim C7: for every section with left ≤ right and top ≤ bottom and every cell
(col, row), the containment test is true iff left ≤ col ≤ right and
top ≤ row ≤ bottom (boundaries inclusive); the `ZoneSection` constructor
stores its four coordinates verbatim and performs no ordering validation
itself (the verbatim-storage equations hold for arbitrary, even unordered,
coordinates). -/
theorem zoneSection_contains_and_ctor_spec (l r t b col row : Nat) :
    (l ≤ r → t ≤ b →
      ((ZoneSection.mk l r t b).contains col row = true ↔
        l ≤ col ∧ col ≤ r ∧ t ≤ row ∧ row ≤ b)) ∧
    ((ZoneSection.mk l r t b).left_col = l ∧
     (ZoneSection.mk l r t b).right_col = r ∧
     (ZoneSection.mk l r t b).top_row = t ∧
     (ZoneSection.mk l r t b).bottom_row = b) := by
  refine ⟨fun _ _ => ?_, rfl, rfl, rfl, rfl⟩
  simp [ZoneSection.contains]

/-- Witness for C7: the containment iff evaluated at section (0,10,0,10)
and cell (3,4), and verbatim storage of the unordered section (5,2,7,1). -/
theorem zoneSection_contains_and_ctor_spec_witness :
    ((ZoneSection.mk 0 10 0 10).contains 3 4 = true) ∧
    ((ZoneSection.mk 5 2 7 1).left_col = 5 ∧
     (ZoneSection.mk 5 2 7 1).right_col = 2 ∧
     (ZoneSection.mk 5 2 7 1).top_row = 7 ∧
     (ZoneSection.mk 5 2 7 1).bottom_row = 1) :=
  ⟨((zoneSection_contains_and_ctor_spec 0 10 0 10 3 4).1 (by decide)
      (by decide)).mpr (by decide),
   (zoneSection_contains_and_ctor_spec 5 2 7 1 0 0).2⟩

/-- Claim C9: `SetSpawnTime(t)` resets the spawn timer's elapsed time to zero,
sets its duration to `t` and starts it running (so a mid-countdown change
of the spawn period restarts the countdown from scratch, whatever the
previously elapsed time was); afterwards `GetSpawnTime()` returns `t`. -/
theorem enemyZone_setSpawnTime_spec (z : EnemyZone) (t : Nat) :
    (z.SetSpawnTime t).spawn_timer.time_expired = 0 ∧
    (z.SetSpawnTime t).spawn_timer.duration = t ∧
    (z.SetSpawnTime t).spawn_timer.running = true ∧
    (z.SetSpawnTime t).GetSpawnTime = t := by
  refine ⟨rfl, rfl, rfl, rfl⟩

/-- Claim C10: the camera cannot be reported as entering and exiting at the same
tick, entering implies the camera is inside, and exiting implies it is not
inside — for every state of the two presence flags. -/
theorem cameraZone_flags_spec (c : CameraZone) :
    (c.IsCameraEntering && c.IsCameraExiting) = false ∧
    (c.IsCameraEntering = true → c.IsCameraInside = true) ∧
    (c.IsCameraExiting = true → c.IsCameraInside = false) := by
  obtain ⟨z, ci, wci⟩ := c
  cases ci <;> cases wci <;>
    simp [CameraZone.IsCameraEntering, CameraZone.IsCameraExiting,
          CameraZone.IsCameraInside]

/-- Witness for C10: a camera zone that just entered (inside now, outside
before) is reported as inside. -/
theorem cameraZone_flags_spec_witness :
    (({ zone := zoneSample, camera_inside := true,
        was_camera_inside := false } : CameraZone).IsCameraEntering = true) ∧
    (({ zone := zoneSample, camera_inside := true,
        was_camera_inside := false } : CameraZone).IsCameraInside = true) :=
  ⟨by decide,
   (cameraZone_flags_spec _).2.1 (by decide)⟩

/-- Claim C5: `AddSection(left, right, top, bottom)` with left ≥ right or
top ≥ bottom is rejected and leaves the zone unchanged; otherwise the new
section is appended; consequently the well-ordering invariant
(left ≤ right and top ≤ bottom for every stored section) is preserved by
`AddSection` and established by the constructor. -/
theorem mapZone_addSection_spec (z : MapZone) (l r t b : Nat) :
    (l ≥ r ∨ t ≥ b → z.AddSection l r t b = z) ∧
    (l < r → t < b →
      (z.AddSection l r t b).sections = z.sections ++ [ZoneSection.mk l r t b]) ∧
    (z.validSections → (z.AddSection l r t b).validSections) ∧
    (MapZone.make l r t b).validSections := by
  refine ⟨fun h => ?_, fun h1 h2 => ?_, fun hv => ?_, ?_⟩
  · simp [MapZone.AddSection, h]
  · simp [MapZone.AddSection, Nat.not_le.mpr h1, Nat.not_le.mpr h2]
  · unfold MapZone.AddSection
    split
    · exact hv
    · rename_i hgeom
      push_neg at hgeom
      intro s hs
      rcases List.mem_append.mp hs with hs | hs
      · exact hv s hs
      · rcases List.mem_singleton.mp hs with rfl
        exact ⟨Nat.le_of_lt hgeom.1, Nat.le_of_lt hgeom.2⟩
  · unfold MapZone.make MapZone.AddSection
    split
    · intro s hs
      simp at hs
    · rename_i hgeom
      push_neg at hgeom
      intro s hs
      simp at hs
      rcases hs with rfl
      exact ⟨Nat.le_of_lt hgeom.1, Nat.le_of_lt hgeom.2⟩

/-- Witness for C5: the degenerate section (5,5,0,3) is rejected leaving
the zone unchanged, while the valid section (2,3,2,3) is appended. -/
theorem mapZone_addSection_spec_witness :
    ((5 : Nat) ≥ 5 ∨ (0 : Nat) ≥ 3) ∧
    zoneSample.AddSection 5 5 0 3 = zoneSample ∧
    ((2 : Nat) < 3 ∧ (2 : Nat) < 3) ∧
    (zoneSample.AddSection 2 3 2 3).sections =
      zoneSample.sections ++ [ZoneSection.mk 2 3 2 3] ∧
    zoneSample.validSections ∧
    (zoneSample.AddSection 2 3 2 3).validSections :=
  ⟨by decide,
   (mapZone_addSection_spec zoneSample 5 5 0 3).1 (by decide),
   by decide,
   (mapZone_addSection_spec zoneSample 2 3 2 3).2.1 (by decide) (by decide),
   by decide,
   (mapZone_addSection_spec zoneSample 2 3 2 3).2.2.1 (by decide)⟩

/-- Claim C4: `IsInsideZone(x, y)` is the disjunction, over the stored sections,
of the containment test applied to the cell coordinates obtained from
(x, y) by truncation; in particular x = 5.9 is tested as column 5. -/
theorem mapZone_isInsideZone_spec (z : MapZone) (x y : ℚ) :
    (z.IsInsideZone x y = true ↔
      ∃ s ∈ z.sections,
        s.left_col ≤ truncCell x ∧ truncCell x ≤ s.right_col ∧
        s.top_row ≤ truncCell y ∧ truncCell y ≤ s.bottom_row) ∧
    truncCell (mkRat 59 10) = 5 := by
  constructor
  · simp [MapZone.IsInsideZone, List.any_eq_true, ZoneSection.contains]
  · decide

def enemySampleExhausted : EnemyZone := enemySampleFull.SetSpawnsLeft 0

theorem enemyDead_active (z : EnemyZone) :
    z.EnemyDead.active_enemies = z.active_enemies - 1 := by
  simp only [EnemyZone.EnemyDead, EnemyZone.DecreaseSpawnsLeft]
  split_ifs <;> rfl

theorem enemyDead_enemies (z : EnemyZone) : z.EnemyDead.enemies = z.enemies := by
  simp only [EnemyZone.EnemyDead, EnemyZone.DecreaseSpawnsLeft]
  split_ifs <;> rfl

theorem enemyDead_spawns_left (z : EnemyZone) :
    z.EnemyDead.spawns_left =
      if 0 < z.spawns_left then z.spawns_left - 1 else z.spawns_left := by
  simp only [EnemyZone.EnemyDead, EnemyZone.DecreaseSpawnsLeft]
  split_ifs <;> rfl

theorem update_exhausted (z : EnemyZone) (h : z.spawns_left = 0)
    (elapsed rSec rX rY : Nat) : z.Update elapsed rSec rX rY = z := by
  simp [EnemyZone.Update, h]

theorem updateRun_exhausted (z : EnemyZone) (h : z.spawns_left = 0)
    (inputs : List (Nat × Nat × Nat × Nat)) : z.UpdateRun inputs = z := by
  induction inputs with
  | nil => rfl
  | cons i is ih =>
      have hstep : z.Update i.1 i.2.1 i.2.2.1 i.2.2.2 = z :=
        update_exhausted z h _ _ _ _
      calc z.UpdateRun (i :: is)
          = (z.Update i.1 i.2.1 i.2.2.1 i.2.2.2).UpdateRun is := rfl
        _ = z.UpdateRun is := by rw [hstep]
        _ = z := ih

/-- Claim C2: `EnemyDead` decrements the active-enemy count by one, and the
spawns-left counter is decremented only when strictly positive —
`DecreaseSpawnsLeft` leaves the values −1 and 0 unchanged, so −1 continues
to mean unlimited; once the spawns-left counter is 0, no spawn ever occurs
again on any subsequent `Update` tick, whatever the timer state (the whole
state is left untouched by any sequence of ticks). -/
theorem enemyZone_enemyDead_spec (z : EnemyZone) :
    (0 < z.active_enemies →
      z.EnemyDead.active_enemies = z.active_enemies - 1) ∧
    (0 < z.spawns_left → z.EnemyDead.spawns_left = z.spawns_left - 1) ∧
    (z.spawns_left = -1 → z.DecreaseSpawnsLeft = z) ∧
    (z.spawns_left = 0 → z.DecreaseSpawnsLeft = z) ∧
    (z.spawns_left = 0 →
      ∀ inputs : List (Nat × Nat × Nat × Nat), z.UpdateRun inputs = z) := by
  refine ⟨fun _ => enemyDead_active z, fun hpos => ?_, fun hm => ?_,
    fun h0 => ?_, fun h0 inputs => updateRun_exhausted z h0 inputs⟩
  · rw [enemyDead_spawns_left, if_pos hpos]
  · simp [EnemyZone.DecreaseSpawnsLeft, hm]
  · simp [EnemyZone.DecreaseSpawnsLeft, h0]

/-- Witness for C2: a zone with two live enemies and two spawns left loses
one of each on `EnemyDead`; a fresh zone (spawns-left −1) and an exhausted
zone (spawns-left 0) keep their counter under `DecreaseSpawnsLeft`, and an
exhausted zone is completely unchanged by an `Update` tick. -/
theorem enemyZone_enemyDead_spec_witness :
    (0 < enemySampleLive.active_enemies ∧
      enemySampleLive.EnemyDead.active_enemies =
        enemySampleLive.active_enemies - 1) ∧
    (0 < enemySampleLive.spawns_left ∧
      enemySampleLive.EnemyDead.spawns_left = enemySampleLive.spawns_left - 1) ∧
    (enemySampleFull.spawns_left = -1 ∧
      enemySampleFull.DecreaseSpawnsLeft = enemySampleFull) ∧
    (enemySampleExhausted.spawns_left = 0 ∧
      enemySampleExhausted.UpdateRun [(5000, 1, 2, 3)] = enemySampleExhausted) :=
  ⟨⟨by decide, (enemyZone_enemyDead_spec enemySampleLive).1 (by decide)⟩,
   ⟨by decide, (enemyZone_enemyDead_spec enemySampleLive).2.1 (by decide)⟩,
   ⟨by decide, (enemyZone_enemyDead_spec enemySampleFull).2.2.1 (by decide)⟩,
   ⟨by decide,
    (enemyZone_enemyDead_spec enemySampleExhausted).2.2.2.2 (by decide) _⟩⟩

/-- Claim C1: an `AddSpawnSection` call whose section is not fully enclosed
within at least one roam section is rejected with only a diagnostic — the
whole zone state, and in particular the spawn sub-zone, is left exactly as
it was (so it remains null and `HasSeparateSpawnZone()` remains false when
nothing was ever accepted); on the first successful add the spawn sub-zone
is lazily created and stores the new section. -/
theorem enemyZone_addSpawnSection_spec (z : EnemyZone) (l r t b : Nat) :
    (z.spawnSectionEnclosed l r t b = false → z.AddSpawnSection l r t b = z) ∧
    (l < r → t < b → z.spawnSectionEnclosed l r t b = true →
      z.spawn_zone = none →
      (z.AddSpawnSection l r t b).spawn_zone = some (MapZone.make l r t b) ∧
      ZoneSection.mk l r t b ∈ (MapZone.make l r t b).sections ∧
      (z.AddSpawnSection l r t b).HasSeparateSpawnZone = true) := by
  refine ⟨fun h => ?_, fun h1 h2 h3 h4 => ?_⟩
  · unfold EnemyZone.AddSpawnSection
    split_ifs with hg he
    · rfl
    · simp [h] at he
    · rfl
  · have hg : ¬ (l ≥ r ∨ t ≥ b) := by
      push_neg
      exact ⟨h1, h2⟩
    have hsec : (MapZone.make l r t b).sections = [ZoneSection.mk l r t b] := by
      simp [MapZone.make, MapZone.AddSection, hg]
    refine ⟨?_, ?_, ?_⟩
    · simp [EnemyZone.AddSpawnSection, hg, h3, h4]
    · simp [hsec]
    · simp [EnemyZone.AddSpawnSection, hg, h3, h4, EnemyZone.HasSeparateSpawnZone]

/-- Witness for C1: against a roam zone of just (0,10,0,1), the spawn
section (2,3,2,3) fails enclosure (no row overlap) and the call changes
nothing — the sub-zone stays null; against a roam zone (0,10,0,10) the
same section is accepted and the sub-zone is created holding it. -/
theorem enemyZone_addSpawnSection_spec_witness :
    (enemySampleRoam.spawnSectionEnclosed 2 3 2 3 = false ∧
     enemySampleRoam.AddSpawnSection 2 3 2 3 = enemySampleRoam ∧
     enemySampleRoam.HasSeparateSpawnZone = false) ∧
    (enemySampleFull.spawnSectionEnclosed 2 3 2 3 = true ∧
     (enemySampleFull.AddSpawnSection 2 3 2 3).spawn_zone =
       some (MapZone.make 2 3 2 3) ∧
     (enemySampleFull.AddSpawnSection 2 3 2 3).HasSeparateSpawnZone = true) :=
  ⟨⟨by decide,
    (enemyZone_addSpawnSection_spec enemySampleRoam 2 3 2 3).1 (by decide),
    by decide⟩,
   ⟨by decide,
    ((enemyZone_addSpawnSection_spec enemySampleFull 2 3 2 3).2 (by decide)
      (by decide) (by decide) (by decide)).1,
    ((enemyZone_addSpawnSection_spec enemySampleFull 2 3 2 3).2 (by decide)
      (by decide) (by decide) (by decide)).2.2⟩⟩

/-- Claim C3: each `CameraZone::Update` first copies the current inside flag
into the previous-tick flag and then recomputes the inside flag from the
tracked position; entering holds iff inside now and not inside on the
prior tick, exiting iff not inside now and inside on the prior tick; both
flags begin false on construction, so no transition fires on a first
Update with the reference outside; and over the five-tick position
sequence outside, outside, inside, inside, outside, entering holds exactly
once (after the 3rd Update) and exiting exactly once (after the 5th). -/
theorem cameraZone_transition_spec (z : MapZone) (p1 p2 p3 p4 p5 : ℚ × ℚ)
    (h1 : z.IsInsideZone p1.1 p1.2 = false)
    (h2 : z.IsInsideZone p2.1 p2.2 = false)
    (h3 : z.IsInsideZone p3.1 p3.2 = true)
    (h4 : z.IsInsideZone p4.1 p4.2 = true)
    (h5 : z.IsInsideZone p5.1 p5.2 = false) :
    (∀ (c : CameraZone) (x y : ℚ),
      (c.Update x y).was_camera_inside = c.camera_inside ∧
      (c.Update x y).camera_inside = c.zone.IsInsideZone x y ∧
      (c.Update x y).IsCameraEntering =
        (c.zone.IsInsideZone x y && !c.camera_inside) ∧
      (c.Update x y).IsCameraExiting =
        (!(c.zone.IsInsideZone x y) && c.camera_inside)) ∧
    (∀ l r t b : Nat,
      (CameraZone.make l r t b).camera_inside = false ∧
      (CameraZone.make l r t b).was_camera_inside = false) ∧
    ((camSeq z [p1]).IsCameraEntering = false ∧
     (camSeq z [p1]).IsCameraExiting = false) ∧
    ((camSeq z [p1, p2]).IsCameraEntering = false ∧
     (camSeq z [p1, p2]).IsCameraExiting = false) ∧
    ((camSeq z [p1, p2, p3]).IsCameraEntering = true ∧
     (camSeq z [p1, p2, p3]).IsCameraExiting = false) ∧
    ((camSeq z [p1, p2, p3, p4]).IsCameraEntering = false ∧
     (camSeq z [p1, p2, p3, p4]).IsCameraExiting = false) ∧
    ((camSeq z [p1, p2, p3, p4, p5]).IsCameraEntering = false ∧
     (camSeq z [p1, p2, p3, p4, p5]).IsCameraExiting = true) := by
  refine ⟨fun c x y => ?_, fun l r t b => ⟨rfl, rfl⟩, ?_, ?_, ?_, ?_, ?_⟩
  · refine ⟨rfl, rfl, ?_, ?_⟩ <;>
      simp [CameraZone.Update, CameraZone.IsCameraEntering,
            CameraZone.IsCameraExiting]
  all_goals
    simp [camSeq, CameraZone.Update, CameraZone.IsCameraEntering,
          CameraZone.IsCameraExiting, h1, h2, h3, h4, h5]

/-- Witness for C3: a concrete zone (0,10,0,10) with positions (20,20)
outside and (5,5) inside — entering is reported after the third tick of
the sequence out, out, in, and exiting after the fifth tick of
out, out, in, in, out. -/
theorem cameraZone_transition_spec_witness :
    (zoneSample.IsInsideZone (mkRat 20 1) (mkRat 20 1) = false ∧
     zoneSample.IsInsideZone (mkRat 5 1) (mkRat 5 1) = true) ∧
    (camSeq zoneSample
      [(mkRat 20 1, mkRat 20 1), (mkRat 20 1, mkRat 20 1),
       (mkRat 5 1, mkRat 5 1)]).IsCameraEntering = true ∧
    (camSeq zoneSample
      [(mkRat 20 1, mkRat 20 1), (mkRat 20 1, mkRat 20 1),
       (mkRat 5 1, mkRat 5 1), (mkRat 5 1, mkRat 5 1),
       (mkRat 20 1, mkRat 20 1)]).IsCameraExiting = true :=
  ⟨⟨by decide, by decide⟩,
   (cameraZone_transition_spec zoneSample
     (mkRat 20 1, mkRat 20 1) (mkRat 20 1, mkRat 20 1)
     (mkRat 5 1, mkRat 5 1) (mkRat 5 1, mkRat 5 1)
     (mkRat 20 1, mkRat 20 1)
     (by decide) (by decide) (by decide) (by decide)
     (by decide)).2.2.2.2.1.1,
   (cameraZone_transition_spec zoneSample
     (mkRat 20 1, mkRat 20 1) (mkRat 20 1, mkRat 20 1)
     (mkRat 5 1, mkRat 5 1) (mkRat 5 1, mkRat 5 1)
     (mkRat 20 1, mkRat 20 1)
     (by decide) (by decide) (by decide) (by decide)
     (by decide)).2.2.2.2.2.2.2⟩

def zoneTwoSections : MapZone := (MapZone.make 0 10 0 10).AddSection 2 3 2 3

/-- Claim C6: on a zone with a non-empty section list, `RandomPosition` picks
the section at index (random value mod section count) — uniform by index
in the section list, not weighted by area — then a cell whose column and
row are each drawn uniformly from the section's inclusive bounds; the
returned position always satisfies `IsInsideZone`. -/
theorem mapZone_randomPosition_spec (z : MapZone) (rSec rX rY : Nat)
    (hne : z.sections ≠ []) (hv : z.validSections) :
    ∃ (i : Fin z.sections.length) (cx cy : Nat),
      (i : Nat) = rSec % z.sections.length ∧
      cx = (z.sections.get i).left_col +
        rX % ((z.sections.get i).right_col - (z.sections.get i).left_col + 1) ∧
      cy = (z.sections.get i).top_row +
        rY % ((z.sections.get i).bottom_row - (z.sections.get i).top_row + 1) ∧
      z.RandomPosition rSec rX rY = some ((cx : ℚ), (cy : ℚ)) ∧
      z.IsInsideZone (cx : ℚ) (cy : ℚ) = true := by
  have hlen : z.sections.length ≠ 0 := by
    simpa [List.length_eq_zero] using hne
  refine ⟨⟨rSec % z.sections.length, Nat.mod_lt _ (Nat.pos_of_ne_zero hlen)⟩,
    _, _, rfl, rfl, rfl, ?_, ?_⟩
  · simp [MapZone.RandomPosition, hlen]
  · have hmem := z.sections.get_mem (rSec % z.sections.length)
      (Nat.mod_lt _ (Nat.pos_of_ne_zero hlen))
    set s := z.sections.get ⟨rSec % z.sections.length,
      Nat.mod_lt _ (Nat.pos_of_ne_zero hlen)⟩ with hsdef
    obtain ⟨hslr, hstb⟩ := hv s hmem
    have hx : rX % (s.right_col - s.left_col + 1) ≤ s.right_col - s.left_col :=
      Nat.lt_succ_iff.mp (Nat.mod_lt _ (Nat.succ_pos _))
    have hy : rY % (s.bottom_row - s.top_row + 1) ≤ s.bottom_row - s.top_row :=
      Nat.lt_succ_iff.mp (Nat.mod_lt _ (Nat.succ_pos _))
    simp only [MapZone.IsInsideZone, List.any_eq_true]
    refine ⟨s, hmem, ?_⟩
    simp only [ZoneSection.contains, truncCell_natCast, decide_eq_true_eq]
    omega

/-- Witness for C6: a two-section zone, oracle values (7, 13, 22) — the
sampled position exists and lies inside the zone. -/
theorem mapZone_randomPosition_spec_witness :
    zoneTwoSections.sections ≠ [] ∧ zoneTwoSections.validSections ∧
    (∃ (i : Fin zoneTwoSections.sections.length) (cx cy : Nat),
      (i : Nat) = 7 % zoneTwoSections.sections.length ∧
      cx = (zoneTwoSections.sections.get i).left_col +
        13 % ((zoneTwoSections.sections.get i).right_col -
          (zoneTwoSections.sections.get i).left_col + 1) ∧
      cy = (zoneTwoSections.sections.get i).top_row +
        22 % ((zoneTwoSections.sections.get i).bottom_row -
          (zoneTwoSections.sections.get i).top_row + 1) ∧
      zoneTwoSections.RandomPosition 7 13 22 = some ((cx : ℚ), (cy : ℚ)) ∧
      zoneTwoSections.IsInsideZone (cx : ℚ) (cy : ℚ) = true) :=
  ⟨by decide, by decide,
   mapZone_randomPosition_spec zoneTwoSections 7 13 22 (by decide) (by decide)⟩

theorem step_active_le_capacity {z z' : EnemyZone} (hs : EnemyZone.Step z z')
    (h : z.active_enemies ≤ z.enemies.length) :
    z'.active_enemies ≤ z'.enemies.length := by
  cases hs with
  | setEnabled e => exact h
  | setRoamingRestrained rr => exact h
  | setSpawnTime t => exact h
  | setSpawnsLeft n => exact h
  | decreaseSpawnsLeft =>
      unfold EnemyZone.DecreaseSpawnsLeft
      split_ifs <;> exact h
  | addSection l r t b => exact h
  | addSpawnSection l r t b =>
      unfold EnemyZone.AddSpawnSection
      split_ifs
      · exact h
      · cases hzs : z.spawn_zone <;> exact h
      · exact h
  | addEnemy enemy count =>
      simp only [EnemyZone.AddEnemy, List.length_append, List.length_replicate]
      omega
  | enemyDead hpos =>
      rw [enemyDead_active, enemyDead_enemies]
      omega
  | update elapsed rSec rX rY =>
      unfold EnemyZone.Update
      split_ifs with hskip hspawn
      · exact h
      · simpa using hspawn.2
      · exact h

/-- Claim C8: in every reachable state of an `EnemyZone`, the active-enemy count
satisfies 0 ≤ active ≤ roster capacity (the number of slots added via
`AddEnemy`); and when the count equals the capacity, an `Update` tick
attempts no spawn — the active count is unchanged, spawning simply
pauses. -/
theorem enemyZone_active_count_spec (z : EnemyZone) (h : z.Reachable) :
    (0 ≤ z.active_enemies ∧ z.active_enemies ≤ z.enemies.length) ∧
    (∀ elapsed rSec rX rY : Nat, z.active_enemies = z.enemies.length →
      (z.Update elapsed rSec rX rY).active_enemies = z.active_enemies) := by
  refine ⟨⟨Nat.zero_le _, ?_⟩, ?_⟩
  · induction h with
    | make l r t b => exact Nat.le_refl 0
    | step hr hs ih => exact step_active_le_capacity hs ih
  · intro elapsed rSec rX rY hcap
    unfold EnemyZone.Update
    split_ifs with hskip hspawn
    · rfl
    · exact absurd hspawn.2 (by omega)
    · rfl

def enemySampleStocked : EnemyZone := (EnemyZone.make 0 10 0 10).AddEnemy 7 3

/-- Witness for C8: a freshly stocked zone (three slots, no live enemies)
satisfies the count invariant, and a fresh zone at capacity (zero slots,
zero live) spawns nothing on an `Update` tick. -/
theorem enemyZone_active_count_spec_witness :
    (0 ≤ enemySampleStocked.active_enemies ∧
      enemySampleStocked.active_enemies ≤ enemySampleStocked.enemies.length) ∧
    ((EnemyZone.make 0 10 0 10).Update 5000 1 2 3).active_enemies =
      (EnemyZone.make 0 10 0 10).active_enemies :=
  ⟨(enemyZone_active_count_spec enemySampleStocked
      (EnemyZone.Reachable.step (EnemyZone.Reachable.make 0 10 0 10)
        (EnemyZone.Step.addEnemy _ 7 3))).1,
   (enemyZone_active_count_spec _ (EnemyZone.Reachable.make 0 10 0 10)).2
     5000 1 2 3 (by decide)⟩

end ValyriaTear

